import Mathlib

/-!
Verification of the zoho-airflow integration layer: a shallow embedding of
the Zoho Creator hook, the Zoho Inventory hook and the Zoho Creator
operator, with theorems settling the behavioral claims about token
caching, URL construction, request retries, the bulk export workflow and
cursor pagination.

HTTP calls, clock reads and external responses are modeled as explicit
oracle arguments; observable side effects (requests issued, sleeps) are
collected in a trace list. Python exceptions are modeled with an error
type threaded through Except. Machine behavior that the source relies on
(argument arity, unbound names, string truthiness) is modeled explicitly.
-/

/-- Python exceptions raised by the embedded code. indentErr stands for
the IndentationError the parser raises for a block at the wrong level. -/
inductive PyErr where
  | typeErr
  | nameErr (missing : String)
  | valueErr (msg : String)
  | attrErr
  | indexErr
  | indentErr (location : String)
  | httpStatusErr (code : Nat)
  | retryErr
deriving DecidableEq, Repr

/-- Observable side effects of a call: HTTP requests issued (with the posted
bulk query for bulk job creation) and sleeps, in order. -/
inductive Effect where
  | http (url : String)
  | post (url : String) (query_max : Nat) (query_cursor : Option String)
  | sleep (seconds : Nat)
deriving DecidableEq, Repr

/-- Python truthiness of an optional string: None and the empty string are
falsy, every other string is truthy. -/
def truthy : Option String → Bool
  | none => false
  | some s => !(s == "")

/-- Python string interpolation of an optional string: None prints as
the four characters None. -/
def optToStr : Option String → String
  | none => "None"
  | some s => s

namespace ZohoCreatorHook

/-- The token cache self underscore token of ZohoCreatorHook: an optional
access token and its creation timestamp, in seconds. -/
structure TokenCache where
  token : Option String
  created_at : Int
deriving DecidableEq, Repr

/-- ZohoCreatorHook.get_token (zoho_creator.py lines 35 to 56): if at most
3600 seconds elapsed since the cached creation timestamp, return the cache
unchanged; otherwise request a fresh access token and store it with the
current time as creation timestamp. The result is (new cache, returned
token dict, whether a fresh token was acquired); the oracle access_token
stands for the token in the refresh response. -/
def get_token (now : Int) (cache : TokenCache) (access_token : String) :
    TokenCache × TokenCache × Bool :=
  if now - cache.created_at ≤ 3600 then (cache, cache, false)
  else
    let nt : TokenCache := ⟨some access_token, now⟩
    (nt, nt, true)

/-- ZohoCreatorHook.get_headers (lines 58 to 60) is declared with no
parameters besides self. -/
def get_headers_param_count : Nat := 0

/-- Calling get_headers with a list of positional arguments: Python raises
TypeError when the argument count does not match the declared parameter
count; otherwise the Authorization header is returned. -/
def call_get_headers (token : String) (args : List (Option String)) :
    Except PyErr String :=
  if args.length = get_headers_param_count then
    .ok ("Zoho-oauthtoken " ++ token)
  else .error .typeErr

/-- The job dict returned by create_bulk_api_read_job: url, job_id, cursor. -/
structure Job where
  url : String
  job_id : Option String
  cursor : Option String
deriving DecidableEq, Repr

/-- The details.result object of a bulk job status response. -/
structure BulkResult where
  download_url : Option String
  record_cursor : Option String
deriving DecidableEq, Repr

/-- The JSON body returned by the job status endpoint, as read by
download_workflow through the keys details.status and details.result. -/
structure StatusDict where
  details_status : Option String
  details_result : Option BulkResult
deriving DecidableEq, Repr

/-- ZohoCreatorHook.check_bulk_job (lines 80 to 89): the headers argument
is built by calling get_headers with one positional argument, the cursor
of the job; the argument expression is evaluated before the HTTP request
is issued, so a TypeError from the call aborts with an empty trace. The
resp oracle is the JSON body the status endpoint would return. -/
def check_bulk_job (token : String) (job : Job) (resp : StatusDict) :
    Except PyErr StatusDict × List Effect :=
  match call_get_headers token [job.cursor] with
  | .error e => (.error e, [])
  | .ok _ => (.ok resp, [.http (job.url ++ "/" ++ optToStr job.job_id)])

/-- A zip archive entry: file name and its parsed tabular content. -/
structure ZipEntry where
  filename : String
  rows : List (List String)
deriving DecidableEq, Repr

/-- An HTTP download response: status code and content bytes holding a
zip archive, modeled as the list of archive entries. -/
structure DlResponse where
  status_code : Nat
  content : List ZipEntry
deriving DecidableEq, Repr

/-- ZohoCreatorHook.download_data (lines 91 to 102): GET the download url
with get_headers called with no arguments, raise for an error status,
and return the response content. -/
def download_data (token : String) (download_url : String)
    (resp : DlResponse) : Except PyErr (List ZipEntry) × List Effect :=
  match call_get_headers token [] with
  | .error e => (.error e, [])
  | .ok _ =>
    if 400 ≤ resp.status_code ∧ resp.status_code < 600 then
      (.error (.httpStatusErr resp.status_code),
       [.http ("https://creator.zoho.eu" ++ download_url)])
    else (.ok resp.content, [.http ("https://creator.zoho.eu" ++ download_url)])

/-- ZohoCreatorHook.extract_zip_file_as_df (lines 128 to 138): the body
opens with the statement with tempfile.TemporaryDirectory() but the module
never imports tempfile, so evaluating the name tempfile raises NameError
before the archive is touched. -/
def extract_zip_file_as_df (databytes : List ZipEntry) :
    Except PyErr (List (List String)) :=
  .error (.nameErr "tempfile")

/-- The behavior the docstring of extract_zip_file_as_df describes, i.e.
the body with the missing tempfile import supplied: unzip the archive and
parse its first entry (data.filelist at index 0) as a table; an empty
archive raises IndexError. -/
def extract_zip_file_as_df_intent (databytes : List ZipEntry) :
    Except PyErr (List (List String)) :=
  match databytes with
  | [] => .error .indexErr
  | entry :: _ => .ok entry.rows

/-- The dict returned by download_workflow on a Completed status: the
parsed table and the record cursor of the result. -/
structure DlOut where
  df : List (List String)
  cursor : Option String
deriving DecidableEq, Repr

/-- The polling loop of download_workflow (lines 111 to 126), with fuel
for the unbounded while loop: while the details.status key is truthy,
download and return on Completed, otherwise sleep 30 seconds and poll the
status endpoint again. Falling out of the loop returns None, modeled as
ok none; exhausted fuel is the outer none. The checks oracle gives the
body of the i-th poll and dl the download response. -/
def download_workflow_go (token : String) (job : Job)
    (checks : Nat → StatusDict) (dl : DlResponse) :
    Nat → Nat → StatusDict → Option (Except PyErr (Option DlOut) × List Effect)
  | 0, _, _ => none
  | fuel+1, i, status =>
    if truthy status.details_status then
      if status.details_status = some "Completed" then
        match status.details_result with
        | none => some (.error .attrErr, [])
        | some result =>
          match download_data token (optToStr result.download_url) dl with
          | (.error e, tr) => some (.error e, tr)
          | (.ok content, tr) =>
            match extract_zip_file_as_df content with
            | .error e => some (.error e, tr)
            | .ok df => some (.ok (some ⟨df, result.record_cursor⟩), tr)
      else
        match check_bulk_job token job (checks i) with
        | (.error e, tr) => some (.error e, Effect.sleep 30 :: tr)
        | (.ok st2, tr) =>
          match download_workflow_go token job checks dl fuel (i+1) st2 with
          | none => none
          | some (r, tr2) => some (r, Effect.sleep 30 :: (tr ++ tr2))
    else some (.ok none, [])

/-- ZohoCreatorHook.download_workflow (lines 104 to 126): first check the
bulk job status, then run the polling loop. -/
def download_workflow (token : String) (job : Job)
    (checks : Nat → StatusDict) (dl : DlResponse) (fuel : Nat) :
    Option (Except PyErr (Option DlOut) × List Effect) :=
  match check_bulk_job token job (checks 0) with
  | (.error e, tr) => some (.error e, tr)
  | (.ok st, tr) =>
    match download_workflow_go token job checks dl fuel 1 st with
    | none => none
    | some (r, tr2) => some (r, tr ++ tr2)

/-- The query posted by create_bulk_api_read_job (lines 69 to 71):
max_records 200000, and the record_cursor key present exactly when the
cursor argument is truthy. -/
structure BulkQuery where
  max_records : Nat
  record_cursor : Option String
deriving DecidableEq, Repr

/-- Lines 69 to 71: query is the dict with max_records 200000, and the
key record_cursor is added when the cursor argument is truthy. -/
def bulk_read_query (cursor : Option String) : BulkQuery :=
  ⟨200000, if truthy cursor then cursor else none⟩

/-- The details object of the bulk job creation response. -/
structure BulkJobDetails where
  id : Option String
deriving DecidableEq, Repr

/-- The bulk job creation response: HTTP status and optional details. -/
structure BulkJobResp where
  status_code : Nat
  details : Option BulkJobDetails
deriving DecidableEq, Repr

/-- ZohoCreatorHook.create_bulk_api_read_job (lines 62 to 78): build the
bulk url, POST the query, raise for an error status, read the job id from
the details of the response and return the job dict carrying the url, the
job id and the cursor argument. A response without details raises
AttributeError when id is read off None. -/
def create_bulk_api_read_job (bulk_endpoint creator app_name view_name : String)
    (cursor : Option String) (resp : BulkJobResp) :
    Except PyErr Job × List Effect :=
  let bulk_url := bulk_endpoint ++ "/" ++ creator ++ "/" ++ app_name ++
    "/report/" ++ view_name ++ "/read"
  let q := bulk_read_query cursor
  let tr := [Effect.post bulk_url q.max_records q.record_cursor]
  if 400 ≤ resp.status_code ∧ resp.status_code < 600 then
    (.error (.httpStatusErr resp.status_code), tr)
  else
    match resp.details with
    | none => (.error .attrErr, tr)
    | some d => (.ok ⟨bulk_url, d.id, cursor⟩, tr)

end ZohoCreatorHook

namespace ZohoInventoryHook

/-- The import of zoho_inventory.py. The file does not parse: the
docstring of contact_persons (lines 451 to 459) is indented at the level
of its def statement instead of inside the body, so the parser raises
IndentationError, the import fails, and no attribute of ZohoInventoryHook
ever exists at runtime. Every definition below this point therefore
embeds source text of methods the program never creates; the runnable
entry points (make_request, invoice_run, item_run) are gated on this
failing import and propagate its error. -/
def module_import : Except PyErr Unit := .error (.indentErr "contact_persons")

/-- Were the parse error fixed, executing the class body would still
raise at line 99: the decorator argument after_log(logger, logging.DEBUG)
on make_request reads the name logger (and then logging), neither of
which is ever imported or bound in the module, a NameError at class
definition time, before make_request and every method after it is
defined. -/
def make_request_decorator : Except PyErr Unit := .error (.nameErr "logger")

/-- ENTITY_MODE_ID_REQ of zoho_inventory.py (lines 13 to 25), invoice key:
the invoice modes that require an id. -/
def ENTITY_MODE_ID_REQ_invoice : List String :=
  ["update", "get", "draft", "submit", "approve", "void", "sent", "delete"]

/-- ENTITY_MODE_ID_REQ, item key: the item modes that require an id. -/
def ENTITY_MODE_ID_REQ_item : List String := ["get", "delete", "update"]

/-- ZOHO_API_METHODS (lines 28 to 39). -/
def ZOHO_API_METHODS : List String :=
  ["compositeitems", "creditnotes", "contacts", "inventoryadjustments",
   "itemdetails", "invoices", "items", "purchaseorders", "salesorders",
   "pricebooks"]

/-- The token cache self.token of ZohoInventoryHook: an optional access
token and its expiry timestamp, in seconds. -/
structure InvToken where
  token : Option String
  expires_at : Int
deriving DecidableEq, Repr

/-- ZohoInventoryHook.get_token (lines 55 to 67): if the current time plus
a 300 second margin is before the cached expiry, return the cache
unchanged; otherwise load the exported token (from the BigQuery oracle,
here the pair of access token and parsed expiry) and store it. The result
is (new cache, returned token dict, whether a fresh token was loaded).
This embeds the body text on lines 55 to 67; the method itself never
exists at runtime because the module never loads (module_import). -/
def get_token (now : Int) (cache : InvToken) (exported : String × Int) :
    InvToken × InvToken × Bool :=
  if now + 300 < cache.expires_at then (cache, cache, false)
  else
    let nt : InvToken := ⟨some exported.1, exported.2⟩
    (nt, nt, true)

/-- ZohoInventoryHook.get_params (lines 52 to 53). -/
def get_params (org_id : String) : List (String × String) :=
  [("organization_id", org_id)]

/-- ZohoInventoryHook.get_url (lines 72 to 94): the guard of the first
branch reads the name unit, but the parameter of the function is named
uuid and no name unit is bound anywhere in the module, so evaluating the
condition raises NameError before any branch can be taken. -/
def get_url (endpoint : String) (method : String) (uuid : Option String) :
    Except PyErr String :=
  .error (.nameErr "unit")

/-- The mapping the branches of get_url define once the unbound name unit
in the guard is read as the parameter uuid (the one token fix the rest of
the function is written against): with an id, the seven sub entity
methods map to their entity urls and anything else raises ValueError;
without an id, a method in ZOHO_API_METHODS maps to endpoint plus method
and anything else raises ValueError. -/
def get_url_intent (endpoint : String) (method : String)
    (uuid : Option String) : Except PyErr String :=
  match uuid with
  | some u =>
    if method = "salesorder_lineitems" then .ok (endpoint ++ "salesorders/" ++ u)
    else if method = "invoice_lineitems" then .ok (endpoint ++ "invoices/" ++ u)
    else if method = "creditnote_lineitems" then .ok (endpoint ++ "creditnotes/" ++ u)
    else if method = "contact_lineitems" then .ok (endpoint ++ "contacts/" ++ u)
    else if method = "contact_persons" then
      .ok (endpoint ++ "contacts/" ++ u ++ "/contact_persons")
    else if method = "inventory_adjustments_lineitems" then
      .ok (endpoint ++ "inventoryadjustments/" ++ u)
    else if method = "bundles" then .ok (endpoint ++ "compositeitems/" ++ u)
    else .error (.valueErr "Get Url method is not Defined")
  | none =>
    if method ∈ ZOHO_API_METHODS then .ok (endpoint ++ method)
    else .error (.valueErr "Not a valid Zoho Inventory Api Method")

/-- An HTTP response as make_request reads it: the status code and the
code field of the JSON body. -/
structure HttpResponse where
  status_code : Nat
  body_code : Option Int
deriving DecidableEq, Repr

/-- What make_request returns: the raw response object (for the get_pdf
and image methods) or the parsed JSON body. -/
inductive ReqResult where
  | raw (resp : HttpResponse)
  | jsonData (resp : HttpResponse)
deriving DecidableEq, Repr

/-- The standard pagination params of make_request (lines 121 to 128). -/
def default_page_params (org_id : String) (page : Nat) :
    List (String × String) :=
  [("organization_id", org_id), ("page", toString page), ("per_page", "200"),
   ("sort_column", "last_modified_time"), ("sort_order", "D")]

/-- Params resolution of make_request (lines 118 to 130): default
pagination params when neither params nor unit is given, the organization
params when unit is given without params, otherwise the given params. -/
def resolve_params (org_id : String) (page : Nat) (unitArg : Option String)
    (paramsArg : Option (List (String × String))) : List (String × String) :=
  match paramsArg, unitArg with
  | none, none => default_page_params org_id page
  | none, some _ => get_params org_id
  | some p, _ => p

/-- The condition under which one attempt of make_request raises and so
triggers a tenacity retry (lines 144 to 152): the body code is 2 or 57
and, because the raise goes through response.raise_for_status which only
raises for client and server error statuses, the HTTP status is in the
4xx or 5xx range. -/
def retries_on (r : HttpResponse) : Prop :=
  (r.body_code = some 2 ∨ r.body_code = some 57) ∧
    (400 ≤ r.status_code ∧ r.status_code < 600)

instance (r : HttpResponse) : Decidable (retries_on r) := by
  unfold retries_on; infer_instance

/-- The response handling of one attempt of make_request (lines 144 to
152): the get_pdf and image methods return the raw response before the
body is parsed; otherwise the body is parsed, raise_for_status is called
when the body code is 2 or 57 (raising only on an error status), and the
parsed body is returned. -/
def make_request_once (method : String) (r : HttpResponse) :
    Except PyErr ReqResult :=
  if method = "get_pdf" ∨ method = "image" then .ok (.raw r)
  else if r.body_code = some 2 ∨ r.body_code = some 57 then
    if 400 ≤ r.status_code ∧ r.status_code < 600 then
      .error (.httpStatusErr r.status_code)
    else .ok (.jsonData r)
  else .ok (.jsonData r)

/-- One full attempt of the decorated make_request body (lines 101 to
152): resolve the url (the call self.get_url with the keyword argument
unit raises TypeError, since the parameter of get_url is named uuid),
resolve the params, build the headers through get_token (updating the
token cache), issue the request and handle the response. -/
def make_request_attempt (org_id method mode : String)
    (unitArg urlArg : Option String)
    (paramsArg : Option (List (String × String))) (page : Nat) (now : Int)
    (fresh : String × Int) (st : InvToken) (r : HttpResponse) :
    Except PyErr ReqResult × List Effect × InvToken :=
  match urlArg with
  | none => (.error .typeErr, [], st)
  | some url =>
    let _params := resolve_params org_id page unitArg paramsArg
    let st1 := (get_token now st fresh).1
    (make_request_once method r, [.http url], st1)

/-- The retry discipline the decorated make_request (lines 96 to 152)
defines once the module loads and the names logger and logging of the
after_log argument are bound (the missing import the decorator arguments
wait_fixed 300 and stop_after_attempt 3 are written against): tenacity
performs the body up to three times, sleeping 300 seconds between
attempts; a raising attempt triggers the next attempt, a third raising
attempt raises RetryError, and a non raising attempt returns immediately.
The fixed attempt count of the decorator is unrolled; the resps oracle
gives the response of the i-th attempt. The program itself never reaches
this behavior: see module_import and make_request_decorator. -/
def make_request_intent (org_id method mode : String)
    (unitArg urlArg : Option String)
    (paramsArg : Option (List (String × String))) (page : Nat) (now : Int)
    (fresh : String × Int) (resps : Nat → HttpResponse) (st : InvToken) :
    Except PyErr ReqResult × List Effect × InvToken :=
  match make_request_attempt org_id method mode unitArg urlArg paramsArg
      page now fresh st (resps 0) with
  | (.ok v, tr1, st1) => (.ok v, tr1, st1)
  | (.error _, tr1, st1) =>
    match make_request_attempt org_id method mode unitArg urlArg paramsArg
        page now fresh st1 (resps 1) with
    | (.ok v, tr2, st2) => (.ok v, tr1 ++ Effect.sleep 300 :: tr2, st2)
    | (.error _, tr2, st2) =>
      match make_request_attempt org_id method mode unitArg urlArg paramsArg
          page now fresh st2 (resps 2) with
      | (.ok v, tr3, st3) =>
        (.ok v, tr1 ++ Effect.sleep 300 :: tr2 ++ Effect.sleep 300 :: tr3, st3)
      | (.error _, tr3, st3) =>
        (.error .retryErr,
         tr1 ++ Effect.sleep 300 :: tr2 ++ Effect.sleep 300 :: tr3, st3)

/-- ZohoInventoryHook.make_request as the program actually has it: any
attempted call first needs the module, whose import fails (module_import),
so every call fails with the import error before any request or sleep;
the retry behavior of make_request_intent is unreachable. -/
def make_request (org_id method mode : String)
    (unitArg urlArg : Option String)
    (paramsArg : Option (List (String × String))) (page : Nat) (now : Int)
    (fresh : String × Int) (resps : Nat → HttpResponse) (st : InvToken) :
    Except PyErr ReqResult × List Effect × InvToken :=
  match module_import with
  | .error e => (.error e, [], st)
  | .ok _ =>
    make_request_intent org_id method mode unitArg urlArg paramsArg page
      now fresh resps st

/-- The request a mode dispatcher hands to make_request: url, HTTP verb
and params. -/
structure ReqSpec where
  url : String
  request_method : String
  params : List (String × String)
deriving DecidableEq, Repr

/-- The dispatch of ZohoInventoryHook.invoice (lines 154 to 205) up to
the call to make_request: the id guard raises ValueError when the mode
requires an invoice id and none (or an empty string) was given, then the
mode branches build url, verb and params, and an unknown mode raises
ValueError. -/
def invoice_request (endpoint org_id : String) (invoice_id : Option String)
    (updates : String) (mode : String) : Except PyErr ReqSpec :=
  let params := get_params org_id
  if mode ∈ ENTITY_MODE_ID_REQ_invoice ∧ truthy invoice_id = false then
    .error (.valueErr ("invoice id not provided for mode " ++ mode ++ " when required"))
  else if mode = "update" then
    .ok ⟨endpoint ++ "invoices/" ++ optToStr invoice_id, "put",
      params ++ [("oauthscope", "ZohoInventory.invoices.UPDATE"), ("JSONString", updates)]⟩
  else if mode = "get" then
    .ok ⟨endpoint ++ "invoices/" ++ optToStr invoice_id, "get",
      params ++ [("oauthscope", "ZohoInventory.invoices.READ"), ("accept", "pdf")]⟩
  else if mode = "create" then
    .ok ⟨endpoint ++ "invoices", "post",
      params ++ [("oauthscope", "ZohoInventory.invoices.CREATE"),
        ("send", "False"), ("ignore_auto_number_generation", "True"),
        ("JSONString", updates)]⟩
  else if mode = "draft" then
    .ok ⟨endpoint ++ "invoices/" ++ optToStr invoice_id ++ "/status/draft", "post",
      params ++ [("oauthscope", "ZohoInventory.invoices.CREATE")]⟩
  else if mode = "submit" then
    .ok ⟨endpoint ++ "invoices/" ++ optToStr invoice_id ++ "/submit", "post", params⟩
  else if mode = "approve" then
    .ok ⟨endpoint ++ "invoices/" ++ optToStr invoice_id ++ "/approve", "post", params⟩
  else if mode = "void" then
    .ok ⟨endpoint ++ "invoices/" ++ optToStr invoice_id ++ "/status/void", "post",
      params ++ [("oauthscope", "ZohoInventory.invoices.CREATE")]⟩
  else if mode = "sent" then
    .ok ⟨endpoint ++ "invoices/" ++ optToStr invoice_id ++ "/status/sent", "post",
      params ++ [("oauthscope", "ZohoInventory.invoices.CREATE")]⟩
  else if mode = "delete" then
    .ok ⟨endpoint ++ "invoices/" ++ optToStr invoice_id, "delete",
      params ++ [("oauthscope", "ZohoInventory.invoices.DELETE")]⟩
  else .error (.valueErr ("method " ++ mode ++ " not defined"))

/-- The dispatch of ZohoInventoryHook.item (lines 249 to 279) up to the
call to make_request: JSONString is set before the id guard, the guard
raises ValueError when the mode requires an item id and none (or an empty
string) was given, create and the three id modes build their requests,
and an unknown mode raises ValueError. Falling through the inner
sub branches would leave request_method unbound, a NameError. -/
def item_request (endpoint org_id : String) (item : Option String)
    (updates : String) (mode : String) : Except PyErr ReqSpec :=
  let params := get_params org_id ++ [("JSONString", updates)]
  if mode ∈ ENTITY_MODE_ID_REQ_item ∧ truthy item = false then
    .error (.valueErr ("item id not provided for mode " ++ mode ++ " when required"))
  else if mode = "create" then
    .ok ⟨endpoint ++ "items", "post",
      params ++ [("oauthscope", "ZohoInventory.items.CREATE")]⟩
  else if mode ∈ ENTITY_MODE_ID_REQ_item then
    let url := endpoint ++ "items/" ++ optToStr item
    if mode = "get" ∧ truthy item = true then
      .ok ⟨url, "get", params ++ [("oauthscope", "ZohoInventory.items.READ")]⟩
    else if mode = "delete" ∧ truthy item = true then
      .ok ⟨url, "delete", params ++ [("oauthscope", "ZohoInventory.items.DELETE")]⟩
    else if mode = "update" ∧ truthy item = true then
      .ok ⟨url, "put", params ++ [("oauthscope", "ZohoInventory.items.UPDATE")]⟩
    else .error (.nameErr "request_method")
  else .error (.valueErr ("item method " ++ mode ++ " not valid"))

/-- The call behavior the body of ZohoInventoryHook.invoice (lines 154 to
211) defines once the module loads: dispatch on the mode, then perform
the (intended) make_request with method invoice. A ValueError from the
dispatch propagates before any request is issued and leaves the token
cache unchanged. Unreachable in the program: see module_import. -/
def invoice_run_intent (endpoint org_id : String) (invoice_id : Option String)
    (updates mode : String) (now : Int) (fresh : String × Int)
    (resps : Nat → HttpResponse) (st : InvToken) :
    Except PyErr ReqResult × List Effect × InvToken :=
  match invoice_request endpoint org_id invoice_id updates mode with
  | .error e => (.error e, [], st)
  | .ok spec =>
    make_request_intent org_id "invoice" spec.request_method none
      (some spec.url) (some spec.params) 1 now fresh resps st

/-- ZohoInventoryHook.invoice as the program actually has it: the import
of the module fails, so every call fails with the import error. -/
def invoice_run (endpoint org_id : String) (invoice_id : Option String)
    (updates mode : String) (now : Int) (fresh : String × Int)
    (resps : Nat → HttpResponse) (st : InvToken) :
    Except PyErr ReqResult × List Effect × InvToken :=
  match module_import with
  | .error e => (.error e, [], st)
  | .ok _ =>
    invoice_run_intent endpoint org_id invoice_id updates mode now fresh
      resps st

/-- The call behavior the body of ZohoInventoryHook.item (lines 249 to
285) defines once the module loads: dispatch on the mode, then perform
the (intended) make_request with method item. A ValueError from the
dispatch propagates before any request is issued and leaves the token
cache unchanged. Unreachable in the program: see module_import. -/
def item_run_intent (endpoint org_id : String) (item : Option String)
    (updates mode : String) (now : Int) (fresh : String × Int)
    (resps : Nat → HttpResponse) (st : InvToken) :
    Except PyErr ReqResult × List Effect × InvToken :=
  match item_request endpoint org_id item updates mode with
  | .error e => (.error e, [], st)
  | .ok spec =>
    make_request_intent org_id "item" spec.request_method none
      (some spec.url) (some spec.params) 1 now fresh resps st

/-- ZohoInventoryHook.item as the program actually has it: the import of
the module fails, so every call fails with the import error. -/
def item_run (endpoint org_id : String) (item : Option String)
    (updates mode : String) (now : Int) (fresh : String × Int)
    (resps : Nat → HttpResponse) (st : InvToken) :
    Except PyErr ReqResult × List Effect × InvToken :=
  match module_import with
  | .error e => (.error e, [], st)
  | .ok _ =>
    item_run_intent endpoint org_id item updates mode now fresh resps st

end ZohoInventoryHook

namespace ZohoCreatorOperator

/-- One page handed back by the download workflow of the hook: the parsed
table of the downloaded file and the record cursor. -/
structure Page where
  df : List (List String)
  cursor : Option String

/-- pandas drop_duplicates on a list of rows: keep the first occurrence
of every row, in order. The seen accumulator holds rows already kept. -/
def drop_duplicates_go (seen : List (List String)) :
    List (List String) → List (List String)
  | [] => []
  | r :: rs =>
    if r ∈ seen then drop_duplicates_go seen rs
    else r :: drop_duplicates_go (r :: seen) rs

/-- collector.drop_duplicates() of download_bulk_data (line 63). -/
def drop_duplicates (rows : List (List String)) : List (List String) :=
  drop_duplicates_go [] rows

/-- The outcome of a completed download_bulk_data run: the returned
deduplicated rows, how many downloads were performed, and the cursor each
in loop bulk read job was created with, in order. -/
structure BulkRun where
  rows : List (List String)
  downloads : Nat
  job_cursors : List (Option String)
deriving DecidableEq, Repr

/-- The while loop of download_bulk_data (lines 54 to 63), with fuel for
the unbounded loop: while the cursor is truthy, download the next page
(the pages oracle stands for the download_workflow calls of the hook),
append its rows to the collector, take its cursor, and create the next
bulk read job with that cursor (recorded in jobs); when the cursor is
falsy the loop ends and the deduplicated collector is returned. -/
def download_bulk_data_go (pages : Nat → Page) :
    Nat → Nat → Option String → List (List String) → List (Option String) →
    Option BulkRun
  | 0, _, _, _, _ => none
  | fuel+1, i, cursor, collector, jobs =>
    if truthy cursor then
      let data := pages i
      download_bulk_data_go pages fuel (i+1) data.cursor
        (collector ++ data.df) (jobs ++ [data.cursor])
    else some ⟨drop_duplicates collector, i, jobs⟩

/-- ZohoCreatorOperator.download_bulk_data (lines 47 to 63): create the
initial job without a cursor, start with the sentinel cursor init, and
run the loop. -/
def download_bulk_data (pages : Nat → Page) (fuel : Nat) : Option BulkRun :=
  download_bulk_data_go pages fuel 0 (some "init") [] []

/-- The concatenation of the tables of pages i, i+1, ..., i+k-1. -/
def seg_rows (pages : Nat → Page) : Nat → Nat → List (List String)
  | _, 0 => []
  | i, k+1 => (pages i).df ++ seg_rows pages (i+1) k

/-- The cursors of pages i, i+1, ..., i+k-1, in order. -/
def seg_cursors (pages : Nat → Page) : Nat → Nat → List (Option String)
  | _, 0 => []
  | i, k+1 => (pages i).cursor :: seg_cursors pages (i+1) k

end ZohoCreatorOperator

namespace Fixtures

/-- A bulk job dict as download_bulk_data would hold it. -/
def c1_job : ZohoCreatorHook.Job :=
  ⟨"https://creator.zoho.eu/api/bulk/v2/username_of_report_creator/myapp/report/myview/read",
   some "1234", none⟩

/-- A status oracle that always reports an in progress job. -/
def c1_checks : Nat → ZohoCreatorHook.StatusDict :=
  fun _ => ⟨some "In-progress", none⟩

/-- A download response holding a one file zip archive. -/
def c1_dl : ZohoCreatorHook.DlResponse := ⟨200, [⟨"records.csv", [["r1"]]⟩]⟩

/-- A page oracle whose first download already carries no cursor. -/
def c2_pages : Nat → ZohoCreatorOperator.Page := fun _ => ⟨[["a"]], none⟩

/-- A successful bulk job creation response with details id 42. -/
def c6_resp : ZohoCreatorHook.BulkJobResp := ⟨200, some ⟨some "42"⟩⟩

/-- The items url of the Inventory API. -/
def c3_url : String := "https://inventory.zoho.eu/api/v1/items"

/-- A response with HTTP status 200 whose JSON body carries code 57. -/
def c3_resp57 : ZohoInventoryHook.HttpResponse := ⟨200, some 57⟩

/-- A response oracle: first attempt HTTP 401 with body code 57, later
attempts HTTP 200 with no code. -/
def c3_resps : Nat → ZohoInventoryHook.HttpResponse :=
  fun i => if i = 0 then ⟨401, some 57⟩ else ⟨200, none⟩

/-- A token cache that is still valid at time 0. -/
def tok0 : ZohoInventoryHook.InvToken := ⟨some "tok", 1000000⟩

/-- A response oracle that always answers 200 with no body code. -/
def ok_resps : Nat → ZohoInventoryHook.HttpResponse := fun _ => ⟨200, none⟩

/-- A page oracle with a duplicated row across its two pages. -/
def c10_pages : Nat → ZohoCreatorOperator.Page :=
  fun n => if n = 0 then ⟨[["a"], ["b"]], some "c"⟩ else ⟨[["a"]], none⟩

end Fixtures


namespace ZohoCreatorOperator

theorem mem_ddgo (x : List String) :
    ∀ (l : List (List String)) (seen : List (List String)),
      x ∈ drop_duplicates_go seen l ↔ (x ∈ l ∧ x ∉ seen)
  | [], seen => by simp [drop_duplicates_go]
  | r :: rs, seen => by
    by_cases h : r ∈ seen
    · rw [drop_duplicates_go, if_pos h, mem_ddgo x rs seen]
      constructor
      · exact fun ⟨h1, h2⟩ => ⟨List.mem_cons_of_mem _ h1, h2⟩
      · rintro ⟨h1, h2⟩
        rcases List.mem_cons.mp h1 with rfl | h1
        · exact absurd h h2
        · exact ⟨h1, h2⟩
    · rw [drop_duplicates_go, if_neg h]
      constructor
      · intro hx
        rcases List.mem_cons.mp hx with rfl | hx
        · exact ⟨List.mem_cons_self _ _, h⟩
        · rcases (mem_ddgo x rs (r :: seen)).mp hx with ⟨h1, h2⟩
          exact ⟨List.mem_cons_of_mem _ h1,
            fun hs => h2 (List.mem_cons_of_mem _ hs)⟩
      · rintro ⟨h1, h2⟩
        rcases List.mem_cons.mp h1 with rfl | h1
        · exact List.mem_cons_self _ _
        · by_cases hxr : x = r
          · subst hxr; exact List.mem_cons_self _ _
          · refine List.mem_cons_of_mem _ ((mem_ddgo x rs (r :: seen)).mpr ⟨h1, ?_⟩)
            intro hs
            rcases List.mem_cons.mp hs with h3 | h3
            · exact hxr h3
            · exact h2 h3

theorem nodup_ddgo :
    ∀ (l seen : List (List String)), (drop_duplicates_go seen l).Nodup
  | [], seen => by simp [drop_duplicates_go]
  | r :: rs, seen => by
    by_cases h : r ∈ seen
    · rw [drop_duplicates_go, if_pos h]; exact nodup_ddgo rs seen
    · rw [drop_duplicates_go, if_neg h]
      refine List.nodup_cons.mpr ⟨?_, nodup_ddgo rs (r :: seen)⟩
      intro hmem
      exact ((mem_ddgo r rs (r :: seen)).mp hmem).2 (List.mem_cons_self _ _)

theorem ddgo_nil_of_subset :
    ∀ (e seen : List (List String)), (∀ x ∈ e, x ∈ seen) →
      drop_duplicates_go seen e = []
  | [], _, _ => rfl
  | r :: rs, seen, h => by
    rw [drop_duplicates_go, if_pos (h r (List.mem_cons_self _ _))]
    exact ddgo_nil_of_subset rs seen (fun x hx => h x (List.mem_cons_of_mem _ hx))

theorem ddgo_append_absorb :
    ∀ (l seen e : List (List String)), (∀ x ∈ e, x ∈ l ∨ x ∈ seen) →
      drop_duplicates_go seen (l ++ e) = drop_duplicates_go seen l
  | [], seen, e, h => by
    have hsub : ∀ x ∈ e, x ∈ seen := by
      intro x hx
      rcases h x hx with hc | hc
      · exact absurd hc (List.not_mem_nil x)
      · exact hc
    simp only [List.nil_append]
    rw [ddgo_nil_of_subset e seen hsub]
    rfl
  | r :: rs, seen, e, h => by
    by_cases hr : r ∈ seen
    · rw [List.cons_append, drop_duplicates_go, if_pos hr,
        drop_duplicates_go, if_pos hr]
      refine ddgo_append_absorb rs seen e ?_
      intro x hx
      rcases h x hx with hc | hc
      · rcases List.mem_cons.mp hc with rfl | hc2
        · exact Or.inr hr
        · exact Or.inl hc2
      · exact Or.inr hc
    · rw [List.cons_append, drop_duplicates_go, if_neg hr,
        drop_duplicates_go, if_neg hr]
      congr 1
      refine ddgo_append_absorb rs (r :: seen) e ?_
      intro x hx
      rcases h x hx with hc | hc
      · rcases List.mem_cons.mp hc with rfl | hc2
        · exact Or.inr (List.mem_cons_self _ _)
        · exact Or.inl hc2
      · exact Or.inr (List.mem_cons_of_mem _ hc)

theorem ddgo_fixpoint :
    ∀ (l seen : List (List String)), l.Nodup → (∀ x ∈ l, x ∉ seen) →
      drop_duplicates_go seen l = l
  | [], _, _, _ => rfl
  | r :: rs, seen, hnd, hdisj => by
    rw [drop_duplicates_go, if_neg (hdisj r (List.mem_cons_self _ _))]
    congr 1
    refine ddgo_fixpoint rs (r :: seen) (List.nodup_cons.mp hnd).2 ?_
    intro x hx hmem
    rcases List.mem_cons.mp hmem with rfl | h2
    · exact (List.nodup_cons.mp hnd).1 hx
    · exact hdisj x (List.mem_cons_of_mem _ hx) h2

theorem run_rows_shape (pages : Nat → Page) :
    ∀ (fuel i : Nat) (c : Option String) (acc : List (List String))
      (jobs : List (Option String)) (r : BulkRun),
      download_bulk_data_go pages fuel i c acc jobs = some r →
      ∃ coll, r.rows = drop_duplicates coll
  | 0, _, _, _, _, r => by
    intro h
    exact absurd h (by simp [download_bulk_data_go])
  | fuel+1, i, c, acc, jobs, r => by
    rw [download_bulk_data_go]
    by_cases hc : truthy c = true
    · rw [if_pos hc]
      exact fun h => run_rows_shape pages fuel (i+1) _ _ _ r h
    · rw [if_neg hc]
      intro h
      obtain rfl := (Option.some.inj h).symm
      exact ⟨acc, rfl⟩

theorem go_step (pages : Nat → Page) (fuel i : Nat) (c : Option String)
    (acc : List (List String)) (jobs : List (Option String))
    (hc : truthy c = true) :
    download_bulk_data_go pages (fuel+1) i c acc jobs =
      download_bulk_data_go pages fuel (i+1) (pages i).cursor
        (acc ++ (pages i).df) (jobs ++ [(pages i).cursor]) := by
  rw [download_bulk_data_go, if_pos hc]

theorem go_exit (pages : Nat → Page) (fuel i : Nat) (c : Option String)
    (acc : List (List String)) (jobs : List (Option String))
    (hc : truthy c = false) :
    download_bulk_data_go pages (fuel+1) i c acc jobs =
      some ⟨drop_duplicates acc, i, jobs⟩ := by
  rw [download_bulk_data_go, if_neg (by simp [hc])]

theorem go_run (pages : Nat → Page) :
    ∀ (d i : Nat) (c : Option String) (acc : List (List String))
      (jobs : List (Option String)) (fuel : Nat),
      truthy c = true →
      (∀ m, m < d → truthy (pages (i+m)).cursor = true) →
      truthy (pages (i+d)).cursor = false →
      d + 2 ≤ fuel →
      download_bulk_data_go pages fuel i c acc jobs =
        some ⟨drop_duplicates (acc ++ seg_rows pages i (d+1)), i + (d+1),
          jobs ++ seg_cursors pages i (d+1)⟩
  | 0, i, c, acc, jobs, fuel => by
    intro hc _ hf hfuel
    obtain ⟨g, rfl⟩ : ∃ g, fuel = g + 2 := ⟨fuel - 2, by omega⟩
    have h0 : truthy (pages i).cursor = false := by simpa using hf
    rw [show g + 2 = (g + 1) + 1 from rfl,
      go_step pages (g+1) i c acc jobs hc,
      go_exit pages g (i+1) (pages i).cursor _ _ h0]
    simp [seg_rows, seg_cursors]
  | d+1, i, c, acc, jobs, fuel => by
    intro hc hm hf hfuel
    obtain ⟨g, rfl⟩ : ∃ g, fuel = g + 1 := ⟨fuel - 1, by omega⟩
    rw [go_step pages g i c acc jobs hc]
    have h0 : truthy (pages i).cursor = true := by simpa using hm 0 (by omega)
    have hm2 : ∀ m, m < d → truthy (pages (i+1+m)).cursor = true := by
      intro m hmd
      have h := hm (m+1) (by omega)
      rw [show i+1+m = i+(m+1) from by omega]
      exact h
    have hf2 : truthy (pages (i+1+d)).cursor = false := by
      rw [show i+1+d = i+(d+1) from by omega]
      exact hf
    rw [go_run pages d (i+1) (pages i).cursor _ _ g h0 hm2 hf2 (by omega)]
    simp only [seg_rows, seg_cursors, List.append_assoc, List.cons_append,
      List.nil_append, List.singleton_append]
    rw [show i + 1 + (d + 1) = i + (d + 1 + 1) from by omega]

theorem go_diverges (pages : Nat → Page)
    (hall : ∀ n, truthy (pages n).cursor = true) :
    ∀ (fuel i : Nat) (c : Option String) (acc : List (List String))
      (jobs : List (Option String)), truthy c = true →
      download_bulk_data_go pages fuel i c acc jobs = none
  | 0, _, _, _, _, _ => rfl
  | fuel+1, i, c, acc, jobs, hc => by
    rw [go_step pages fuel i c acc jobs hc]
    exact go_diverges pages hall fuel (i+1) _ _ _ (hall i)

end ZohoCreatorOperator

namespace ZohoInventoryHook

theorem once_raw (method : String) (r : HttpResponse)
    (hm : method = "get_pdf" ∨ method = "image") :
    make_request_once method r = .ok (.raw r) := by
  rw [make_request_once, if_pos hm]

theorem once_retry (method : String) (r : HttpResponse)
    (hm : ¬(method = "get_pdf" ∨ method = "image")) (hr : retries_on r) :
    make_request_once method r = .error (.httpStatusErr r.status_code) := by
  rw [make_request_once, if_neg hm, if_pos hr.1, if_pos hr.2]

theorem once_ok (method : String) (r : HttpResponse)
    (hm : ¬(method = "get_pdf" ∨ method = "image")) (hr : ¬retries_on r) :
    make_request_once method r = .ok (.jsonData r) := by
  rw [make_request_once, if_neg hm]
  by_cases hc : r.body_code = some 2 ∨ r.body_code = some 57
  · rw [if_pos hc, if_neg (fun hs => hr ⟨hc, hs⟩)]
  · rw [if_neg hc]

theorem attempt_eq (org_id method mode : String) (unitArg : Option String)
    (u : String) (paramsArg : Option (List (String × String))) (page : Nat)
    (now : Int) (fresh : String × Int) (st : InvToken) (r : HttpResponse) :
    make_request_attempt org_id method mode unitArg (some u) paramsArg page
        now fresh st r =
      (make_request_once method r, [.http u], (get_token now st fresh).1) := rfl

end ZohoInventoryHook

/-- Claim C8: every call to check_bulk_job fails before performing any HTTP
request, because it invokes get_headers with one positional argument (the
cursor of the job) while get_headers accepts none, so the TypeError is
raised with an empty effect trace; consequently download_workflow, which
begins with check_bulk_job, always propagates that TypeError with an empty
trace and can never reach its download step. -/
theorem c8_check_bulk_job_always_type_errors :
    ∀ (token : String) (job : ZohoCreatorHook.Job)
      (resp : ZohoCreatorHook.StatusDict),
      ZohoCreatorHook.check_bulk_job token job resp = (.error .typeErr, []) ∧
      ∀ (checks : Nat → ZohoCreatorHook.StatusDict)
        (dl : ZohoCreatorHook.DlResponse) (fuel : Nat),
        ZohoCreatorHook.download_workflow token job checks dl fuel =
          some (.error .typeErr, []) := by
  intro token job resp
  have hck : ∀ resp2, ZohoCreatorHook.check_bulk_job token job resp2 =
      (.error .typeErr, []) := by
    intro resp2
    simp [ZohoCreatorHook.check_bulk_job, ZohoCreatorHook.call_get_headers,
      ZohoCreatorHook.get_headers_param_count]
  refine ⟨hck resp, ?_⟩
  intro checks dl fuel
  rw [ZohoCreatorHook.download_workflow, hck (checks 0)]

/-- Claim C1: the claim says download_workflow polls the status endpoint
every 30 seconds until a terminal status appears and, on Completed,
downloads and unzips the result into a table returned with the record
cursor. Evaluating the embedded code at a concrete job shows the actual
behavior: the first status check raises TypeError (get_headers is called
with an argument it does not accept) and no HTTP request, sleep or
download ever happens. -/
theorem c1_download_workflow_type_errors_at_concrete_job :
    ZohoCreatorHook.download_workflow "sometoken" Fixtures.c1_job
      Fixtures.c1_checks Fixtures.c1_dl 5 = some (.error .typeErr, []) := rfl

/-- Claim C7: the claim says extract_zip_file_as_df returns the first
contained file of a valid zip archive parsed as a table. The code raises
NameError on every input because tempfile is never imported; the intended
behavior (with the import supplied) does return the first entry parsed. -/
theorem c7_extract_zip_name_errors_on_every_archive :
    ∀ (z : List ZohoCreatorHook.ZipEntry),
      ZohoCreatorHook.extract_zip_file_as_df z = .error (.nameErr "tempfile") ∧
      ∀ (e : ZohoCreatorHook.ZipEntry) (rest : List ZohoCreatorHook.ZipEntry),
        ZohoCreatorHook.extract_zip_file_as_df_intent (e :: rest) = .ok e.rows :=
  fun _ => ⟨rfl, fun _ _ => rfl⟩

/-- Claim C6: create_bulk_api_read_job posts a query with max_records
200000 whose record_cursor key is present exactly when a non empty cursor
argument is supplied (with that cursor as value), and on a successful
response returns the dict with the bulk url, the job id taken from the
details of the response, and the cursor. -/
theorem c6_create_bulk_api_read_job_spec :
    ∀ (bulk_endpoint creator app_name view_name : String)
      (cursor : Option String) (resp : ZohoCreatorHook.BulkJobResp)
      (d : ZohoCreatorHook.BulkJobDetails),
      resp.status_code = 200 → resp.details = some d →
      (ZohoCreatorHook.bulk_read_query cursor).max_records = 200000 ∧
      (truthy cursor = true →
        (ZohoCreatorHook.bulk_read_query cursor).record_cursor = cursor) ∧
      (truthy cursor = false →
        (ZohoCreatorHook.bulk_read_query cursor).record_cursor = none) ∧
      ((ZohoCreatorHook.bulk_read_query cursor).record_cursor ≠ none ↔
        ∃ s, cursor = some s ∧ s ≠ "") ∧
      ZohoCreatorHook.create_bulk_api_read_job bulk_endpoint creator app_name
          view_name cursor resp =
        (.ok ⟨bulk_endpoint ++ "/" ++ creator ++ "/" ++ app_name ++
            "/report/" ++ view_name ++ "/read", d.id, cursor⟩,
         [.post (bulk_endpoint ++ "/" ++ creator ++ "/" ++ app_name ++
            "/report/" ++ view_name ++ "/read") 200000
            (ZohoCreatorHook.bulk_read_query cursor).record_cursor]) := by
  intro be cr an vn cursor resp d hstatus hdetails
  refine ⟨rfl, ?_, ?_, ?_, ?_⟩
  · intro ht
    simp [ZohoCreatorHook.bulk_read_query, ht]
  · intro hf
    simp [ZohoCreatorHook.bulk_read_query, hf]
  · cases cursor with
    | none => simp [ZohoCreatorHook.bulk_read_query, truthy]
    | some s =>
      by_cases hs : s = ""
      · subst hs
        simp [ZohoCreatorHook.bulk_read_query, truthy]
      · simp [ZohoCreatorHook.bulk_read_query, truthy, hs]
  · simp [ZohoCreatorHook.create_bulk_api_read_job, hstatus, hdetails,
      ZohoCreatorHook.bulk_read_query]

/-- Witness for C6 at a concrete input: status 200, details id 42, cursor
abc; the query carries the cursor and the returned job dict carries the
bulk url, the id from the details and the cursor. -/
theorem c6_create_bulk_api_read_job_spec_witness :
    Fixtures.c6_resp.status_code = 200 ∧
    Fixtures.c6_resp.details = some ⟨some "42"⟩ ∧
    ZohoCreatorHook.create_bulk_api_read_job "https://creator.zoho.eu/api/bulk/v2"
        "username_of_report_creator" "myapp" "myview" (some "abc") Fixtures.c6_resp =
      (.ok ⟨"https://creator.zoho.eu/api/bulk/v2/username_of_report_creator/myapp/report/myview/read",
          some "42", some "abc"⟩,
       [.post "https://creator.zoho.eu/api/bulk/v2/username_of_report_creator/myapp/report/myview/read"
          200000 (some "abc")]) := by
  have h := c6_create_bulk_api_read_job_spec "https://creator.zoho.eu/api/bulk/v2"
    "username_of_report_creator" "myapp" "myview" (some "abc") Fixtures.c6_resp
    ⟨some "42"⟩ rfl rfl
  exact ⟨rfl, rfl, h.2.2.2.2.trans (by rfl)⟩

/-- Claim C4: the claim describes both hooks. The Creator half holds of
the running code: get_token returns the cached token without acquiring a
new one exactly when at most 3600 seconds elapsed since the cached
creation timestamp, and otherwise refreshes, stores and returns. The
Inventory half describes a method the program never creates:
zoho_inventory.py never imports (IndentationError at the contact_persons
docstring; NameError at the make_request decorator were it parsed), so
ZohoInventoryHook.get_token does not exist at runtime — the first
conjunct records the failing import. The Inventory conjuncts below are
about the embedded body text of lines 55 to 67, which does implement the
claimed check (now plus a 300 second margin before the cached expiry). -/
theorem c4_get_token_cache_spec :
    ZohoInventoryHook.module_import = .error (.indentErr "contact_persons") ∧
    ∀ (now : Int) (cacheC : ZohoCreatorHook.TokenCache) (freshC : String)
      (cacheI : ZohoInventoryHook.InvToken) (freshI : String × Int),
      ((now - cacheC.created_at ≤ 3600 →
          ZohoCreatorHook.get_token now cacheC freshC = (cacheC, cacheC, false)) ∧
       (¬(now - cacheC.created_at ≤ 3600) →
          ZohoCreatorHook.get_token now cacheC freshC =
            (⟨some freshC, now⟩, ⟨some freshC, now⟩, true))) ∧
      ((now + 300 < cacheI.expires_at →
          ZohoInventoryHook.get_token now cacheI freshI = (cacheI, cacheI, false)) ∧
       (¬(now + 300 < cacheI.expires_at) →
          ZohoInventoryHook.get_token now cacheI freshI =
            (⟨some freshI.1, freshI.2⟩, ⟨some freshI.1, freshI.2⟩, true))) := by
  refine ⟨rfl, ?_⟩
  intro now cC fC cI fI
  refine ⟨⟨fun h => ?_, fun h => ?_⟩, fun h => ?_, fun h => ?_⟩ <;>
    simp [ZohoCreatorHook.get_token, ZohoInventoryHook.get_token, h]

/-- Witness for C4: a still valid and an expired cache for each hook,
evaluated at concrete times. -/
theorem c4_get_token_cache_spec_witness :
    ZohoCreatorHook.get_token 0 ⟨some "t", -100⟩ "f" =
      (⟨some "t", -100⟩, ⟨some "t", -100⟩, false) ∧
    ZohoCreatorHook.get_token 10000 ⟨some "t", 0⟩ "f" =
      (⟨some "f", 10000⟩, ⟨some "f", 10000⟩, true) ∧
    ZohoInventoryHook.get_token 0 ⟨some "t", 1000⟩ ("g", 5000) =
      (⟨some "t", 1000⟩, ⟨some "t", 1000⟩, false) ∧
    ZohoInventoryHook.get_token 0 ⟨some "t", 100⟩ ("g", 5000) =
      (⟨some "g", 5000⟩, ⟨some "g", 5000⟩, true) :=
  ⟨(c4_get_token_cache_spec.2 0 ⟨some "t", -100⟩ "f" ⟨some "t", 1000⟩ ("g", 5000)).1.1
      (by norm_num),
   (c4_get_token_cache_spec.2 10000 ⟨some "t", 0⟩ "f" ⟨some "t", 1000⟩ ("g", 5000)).1.2
      (by norm_num),
   (c4_get_token_cache_spec.2 0 ⟨some "t", -100⟩ "f" ⟨some "t", 1000⟩ ("g", 5000)).2.1
      (by norm_num),
   (c4_get_token_cache_spec.2 0 ⟨some "t", -100⟩ "f" ⟨some "t", 100⟩ ("g", 5000)).2.2
      (by norm_num)⟩

/-- Claim C5: the claim says get_url maps the seven sub entity method
names with an id to their entity urls, the ten listed methods without an
id to endpoint plus method, and raises ValueError otherwise. The code
instead raises NameError on every call: the guard reads the unbound name
unit while the parameter is named uuid. The mapping the claim describes
holds of the branches once the guard reads uuid (get_url_intent). -/
theorem c5_get_url_raises_name_error :
    (∀ (endpoint method : String) (uuid : Option String),
      ZohoInventoryHook.get_url endpoint method uuid = .error (.nameErr "unit")) ∧
    ZohoInventoryHook.get_url_intent "https://inventory.zoho.eu/api/v1/"
        "items" none = .ok "https://inventory.zoho.eu/api/v1/items" ∧
    ZohoInventoryHook.get_url_intent "https://inventory.zoho.eu/api/v1/"
        "salesorder_lineitems" (some "7") =
      .ok "https://inventory.zoho.eu/api/v1/salesorders/7" ∧
    ZohoInventoryHook.get_url_intent "https://inventory.zoho.eu/api/v1/"
        "contact_persons" (some "7") =
      .ok "https://inventory.zoho.eu/api/v1/contacts/7/contact_persons" ∧
    ZohoInventoryHook.get_url_intent "https://inventory.zoho.eu/api/v1/"
        "bogus" none = .error (.valueErr "Not a valid Zoho Inventory Api Method") ∧
    ZohoInventoryHook.get_url_intent "https://inventory.zoho.eu/api/v1/"
        "bogus" (some "7") = .error (.valueErr "Get Url method is not Defined") :=
  ⟨fun _ _ _ => rfl, rfl, rfl, rfl, rfl, rfl⟩

/-- Claim C3: the claim describes the retry discipline of make_request
(retry on an auth failure body, fixed 300 second delay, maximum 3
attempts, raw response for get_pdf and image). The program can never
exhibit it: zoho_inventory.py fails to parse (IndentationError at the
contact_persons docstring) so the module never imports, and even with the
parse fixed the class body would die at the unbound decorator names
logger and logging of after_log on make_request; every attempted call
therefore fails with the import error, with no request and no sleep. The
retry machinery the decorator arguments wait_fixed 300 and
stop_after_attempt 3 are written against is proved of make_request_intent
below; note that even it retries only when raise_for_status actually
raises, i.e. when the auth failure body comes with a 4xx or 5xx HTTP
status: the closed conjunct evaluates it at a status 200 body with code
57 and shows the body returned after one request with no sleep. -/
theorem c3_make_request_never_runs :
    ZohoInventoryHook.module_import = .error (.indentErr "contact_persons") ∧
    ZohoInventoryHook.make_request_decorator = .error (.nameErr "logger") ∧
    (∀ (org_id method mode : String) (unitArg urlArg : Option String)
      (paramsArg : Option (List (String × String))) (page : Nat) (now : Int)
      (fresh : String × Int) (resps : Nat → ZohoInventoryHook.HttpResponse)
      (st : ZohoInventoryHook.InvToken),
      ZohoInventoryHook.make_request org_id method mode unitArg urlArg
          paramsArg page now fresh resps st =
        (.error (.indentErr "contact_persons"), [], st)) ∧
    (Fixtures.c3_resp57.body_code = some 57 ∧
     ZohoInventoryHook.make_request_intent "org1" "items" "get" none
        (some Fixtures.c3_url) none 1 0 ("fresh", 0)
        (fun _ => Fixtures.c3_resp57) Fixtures.tok0 =
      (.ok (.jsonData Fixtures.c3_resp57), [.http Fixtures.c3_url],
       Fixtures.tok0)) ∧
    ∀ (org_id method mode : String) (unitArg : Option String) (u : String)
      (paramsArg : Option (List (String × String))) (page : Nat) (now : Int)
      (fresh : String × Int) (resps : Nat → ZohoInventoryHook.HttpResponse)
      (st : ZohoInventoryHook.InvToken),
      ((method = "get_pdf" ∨ method = "image") →
        ZohoInventoryHook.make_request_intent org_id method mode unitArg (some u)
            paramsArg page now fresh resps st =
          (.ok (.raw (resps 0)), [.http u],
           (ZohoInventoryHook.get_token now st fresh).1)) ∧
      (¬(method = "get_pdf" ∨ method = "image") →
        ¬ZohoInventoryHook.retries_on (resps 0) →
        ZohoInventoryHook.make_request_intent org_id method mode unitArg (some u)
            paramsArg page now fresh resps st =
          (.ok (.jsonData (resps 0)), [.http u],
           (ZohoInventoryHook.get_token now st fresh).1)) ∧
      (¬(method = "get_pdf" ∨ method = "image") →
        ZohoInventoryHook.retries_on (resps 0) →
        ¬ZohoInventoryHook.retries_on (resps 1) →
        (ZohoInventoryHook.make_request_intent org_id method mode unitArg (some u)
            paramsArg page now fresh resps st).1 = .ok (.jsonData (resps 1)) ∧
        (ZohoInventoryHook.make_request_intent org_id method mode unitArg (some u)
            paramsArg page now fresh resps st).2.1 =
          [.http u, .sleep 300, .http u]) ∧
      (¬(method = "get_pdf" ∨ method = "image") →
        ZohoInventoryHook.retries_on (resps 0) →
        ZohoInventoryHook.retries_on (resps 1) →
        ZohoInventoryHook.retries_on (resps 2) →
        (ZohoInventoryHook.make_request_intent org_id method mode unitArg (some u)
            paramsArg page now fresh resps st).1 = .error .retryErr ∧
        (ZohoInventoryHook.make_request_intent org_id method mode unitArg (some u)
            paramsArg page now fresh resps st).2.1 =
          [.http u, .sleep 300, .http u, .sleep 300, .http u]) := by
  refine ⟨rfl, rfl, fun _ _ _ _ _ _ _ _ _ _ _ => rfl, ⟨rfl, rfl⟩, ?_⟩
  intro org method mode unitArg u paramsArg page now fresh resps st
  refine ⟨fun hm => ?_, fun hm h0 => ?_, fun hm h0 h1 => ?_,
    fun hm h0 h1 h2 => ?_⟩
  · simp only [ZohoInventoryHook.make_request_intent, ZohoInventoryHook.attempt_eq,
      ZohoInventoryHook.once_raw method (resps 0) hm]
  · simp only [ZohoInventoryHook.make_request_intent, ZohoInventoryHook.attempt_eq,
      ZohoInventoryHook.once_ok method (resps 0) hm h0]
  · have e0 := ZohoInventoryHook.once_retry method (resps 0) hm h0
    have e1 := ZohoInventoryHook.once_ok method (resps 1) hm h1
    constructor <;>
      simp only [ZohoInventoryHook.make_request_intent, ZohoInventoryHook.attempt_eq,
        e0, e1, List.cons_append, List.nil_append]
  · have e0 := ZohoInventoryHook.once_retry method (resps 0) hm h0
    have e1 := ZohoInventoryHook.once_retry method (resps 1) hm h1
    have e2 := ZohoInventoryHook.once_retry method (resps 2) hm h2
    constructor <;>
      simp only [ZohoInventoryHook.make_request_intent, ZohoInventoryHook.attempt_eq,
        e0, e1, e2, List.cons_append, List.nil_append]

/-- Witness for C3, exercising the intent conjuncts: first attempt HTTP
401 with body code 57 (the retry condition), second attempt HTTP 200
without a code; the intended call returns the parsed second body and the
trace is request, 300 second sleep, request. -/
theorem c3_make_request_never_runs_witness :
    ¬("items" = "get_pdf" ∨ "items" = "image") ∧
    ZohoInventoryHook.retries_on (Fixtures.c3_resps 0) ∧
    ¬ZohoInventoryHook.retries_on (Fixtures.c3_resps 1) ∧
    (ZohoInventoryHook.make_request_intent "org1" "items" "get" none
        (some Fixtures.c3_url) none 1 0 ("fresh", 0) Fixtures.c3_resps
        Fixtures.tok0).1 = .ok (.jsonData (Fixtures.c3_resps 1)) ∧
    (ZohoInventoryHook.make_request_intent "org1" "items" "get" none
        (some Fixtures.c3_url) none 1 0 ("fresh", 0) Fixtures.c3_resps
        Fixtures.tok0).2.1 =
      [.http Fixtures.c3_url, .sleep 300, .http Fixtures.c3_url] := by
  have hm : ¬("items" = "get_pdf" ∨ "items" = "image") := by decide
  have h0 : ZohoInventoryHook.retries_on (Fixtures.c3_resps 0) := by decide
  have h1 : ¬ZohoInventoryHook.retries_on (Fixtures.c3_resps 1) := by decide
  have h := (c3_make_request_never_runs.2.2.2.2 "org1" "items" "get" none
    Fixtures.c3_url none 1 0 ("fresh", 0) Fixtures.c3_resps
    Fixtures.tok0).2.2.1 hm h0 h1
  exact ⟨hm, h0, h1, h.1, h.2⟩

/-- Claim C9: the claim describes the id guards of invoice and item. The
program can never run them: zoho_inventory.py never imports
(IndentationError at the contact_persons docstring; NameError at the
make_request decorator were it parsed, before invoice and item are
defined), so every attempted call fails with the import error — the
first two conjuncts record this. The guard text itself (lines 162 to 163
and 259 to 260) does behave as claimed: for every invoice mode in the
invoice id required set and every item mode in the item id required set,
a call without a truthy entity id raises ValueError with an empty effect
trace and the token cache unchanged, proved of the intent embeddings. -/
theorem c9_entity_id_guard_value_error :
    ZohoInventoryHook.module_import = .error (.indentErr "contact_persons") ∧
    (∀ (endpoint org_id : String) (entity_id : Option String)
      (updates mode : String) (now : Int) (fresh : String × Int)
      (resps : Nat → ZohoInventoryHook.HttpResponse)
      (st : ZohoInventoryHook.InvToken),
      ZohoInventoryHook.invoice_run endpoint org_id entity_id updates mode
          now fresh resps st =
        (.error (.indentErr "contact_persons"), [], st) ∧
      ZohoInventoryHook.item_run endpoint org_id entity_id updates mode
          now fresh resps st =
        (.error (.indentErr "contact_persons"), [], st)) ∧
    ∀ (endpoint org_id : String) (entity_id : Option String)
      (updates mode : String) (now : Int) (fresh : String × Int)
      (resps : Nat → ZohoInventoryHook.HttpResponse)
      (st : ZohoInventoryHook.InvToken),
      (mode ∈ ZohoInventoryHook.ENTITY_MODE_ID_REQ_invoice →
        truthy entity_id = false →
        ZohoInventoryHook.invoice_run_intent endpoint org_id entity_id
            updates mode now fresh resps st =
          (.error (.valueErr ("invoice id not provided for mode " ++ mode ++
            " when required")), [], st)) ∧
      (mode ∈ ZohoInventoryHook.ENTITY_MODE_ID_REQ_item →
        truthy entity_id = false →
        ZohoInventoryHook.item_run_intent endpoint org_id entity_id updates
            mode now fresh resps st =
          (.error (.valueErr ("item id not provided for mode " ++ mode ++
            " when required")), [], st)) := by
  refine ⟨rfl, fun _ _ _ _ _ _ _ _ _ => ⟨rfl, rfl⟩, ?_⟩
  intro ep org eid updates mode now fresh resps st
  constructor
  · intro h1 h2
    simp only [ZohoInventoryHook.invoice_run_intent,
      ZohoInventoryHook.invoice_request]
    rw [if_pos ⟨h1, h2⟩]
  · intro h1 h2
    simp only [ZohoInventoryHook.item_run_intent,
      ZohoInventoryHook.item_request]
    rw [if_pos ⟨h1, h2⟩]

/-- Witness for C9, exercising the intent conjuncts: mode update (which
requires an id for both invoice and item) called with no entity id raises
the ValueError, leaves the trace empty and the token cache untouched. -/
theorem c9_entity_id_guard_value_error_witness :
    "update" ∈ ZohoInventoryHook.ENTITY_MODE_ID_REQ_invoice ∧
    "update" ∈ ZohoInventoryHook.ENTITY_MODE_ID_REQ_item ∧
    truthy none = false ∧
    ZohoInventoryHook.invoice_run_intent "https://inventory.zoho.eu/api/v1/"
        "org1" none "upd" "update" 0 ("f", 0) Fixtures.ok_resps Fixtures.tok0 =
      (.error (.valueErr "invoice id not provided for mode update when required"),
       [], Fixtures.tok0) ∧
    ZohoInventoryHook.item_run_intent "https://inventory.zoho.eu/api/v1/"
        "org1" none "upd" "update" 0 ("f", 0) Fixtures.ok_resps Fixtures.tok0 =
      (.error (.valueErr "item id not provided for mode update when required"),
       [], Fixtures.tok0) := by
  have m1 : "update" ∈ ZohoInventoryHook.ENTITY_MODE_ID_REQ_invoice := by decide
  have m2 : "update" ∈ ZohoInventoryHook.ENTITY_MODE_ID_REQ_item := by decide
  have h := c9_entity_id_guard_value_error.2.2
    "https://inventory.zoho.eu/api/v1/" "org1" none "upd" "update" 0
    ("f", 0) Fixtures.ok_resps Fixtures.tok0
  exact ⟨m1, m2, rfl, h.1 m1 rfl, h.2 m2 rfl⟩

/-- Claim C2: download_bulk_data keeps downloading the next page and
creating a new bulk read job with the most recent record cursor while the
cursor of the previous download is truthy, and terminates exactly when a
download yields an empty or absent cursor: when some download returns a
falsy cursor (the least such index being Nat.find), any fuel of at least
Nat.find plus 2 completes the run, performing exactly Nat.find plus 1
downloads, creating the in loop jobs with exactly the downloaded cursors
in order, and returning the deduplicated concatenation of the pages;
when every download returns a truthy cursor the loop never finishes. -/
theorem c2_download_bulk_data_pagination_terminates
    (pages : Nat → ZohoCreatorOperator.Page) :
    (∀ (h : ∃ n, truthy (pages n).cursor = false) (fuel : Nat),
      Nat.find h + 2 ≤ fuel →
      ZohoCreatorOperator.download_bulk_data pages fuel =
        some ⟨ZohoCreatorOperator.drop_duplicates
            (ZohoCreatorOperator.seg_rows pages 0 (Nat.find h + 1)),
          Nat.find h + 1,
          ZohoCreatorOperator.seg_cursors pages 0 (Nat.find h + 1)⟩) ∧
    ((∀ n, truthy (pages n).cursor = true) → ∀ fuel,
      ZohoCreatorOperator.download_bulk_data pages fuel = none) := by
  constructor
  · intro h fuel hfuel
    have hm : ∀ m, m < Nat.find h → truthy (pages (0+m)).cursor = true := by
      intro m hmlt
      have hnot := Nat.find_min h hmlt
      simpa using hnot
    have hf : truthy (pages (0 + Nat.find h)).cursor = false := by
      simpa using Nat.find_spec h
    have hrun := ZohoCreatorOperator.go_run pages (Nat.find h) 0 (some "init")
      [] [] fuel (by decide) hm hf hfuel
    simpa [ZohoCreatorOperator.download_bulk_data] using hrun
  · intro hall fuel
    exact ZohoCreatorOperator.go_diverges pages hall fuel 0 (some "init") [] []
      (by decide)

/-- Witness for C2: a page oracle whose first download carries no cursor
terminates after one download, one in loop job creation with cursor None,
and returns the rows of that single page. -/
theorem c2_download_bulk_data_pagination_terminates_witness :
    (∃ n, truthy ((Fixtures.c2_pages n).cursor) = false) ∧
    ZohoCreatorOperator.download_bulk_data Fixtures.c2_pages 2 =
      some ⟨[["a"]], 1, [none]⟩ := by
  have hex : ∃ n, truthy ((Fixtures.c2_pages n).cursor) = false := ⟨0, rfl⟩
  have hf : Nat.find hex = 0 := (Nat.find_eq_zero hex).mpr rfl
  have h2 := (c2_download_bulk_data_pagination_terminates Fixtures.c2_pages).1
    hex 2 (by omega)
  rw [hf] at h2
  refine ⟨hex, ?_⟩
  rw [h2]
  rfl

/-- Claim C10: the frame returned by download_bulk_data has no duplicate
rows, deduplication is idempotent on it, and appending a page whose rows
were all already collected and deduplicating leaves the returned result
unchanged. -/
theorem c10_download_bulk_data_dedup
    (pages : Nat → ZohoCreatorOperator.Page) (fuel : Nat)
    (r : ZohoCreatorOperator.BulkRun)
    (h : ZohoCreatorOperator.download_bulk_data pages fuel = some r) :
    r.rows.Nodup ∧
    ZohoCreatorOperator.drop_duplicates r.rows = r.rows ∧
    ∀ extra, (∀ x ∈ extra, x ∈ r.rows) →
      ZohoCreatorOperator.drop_duplicates (r.rows ++ extra) = r.rows := by
  obtain ⟨coll, hcoll⟩ := ZohoCreatorOperator.run_rows_shape pages fuel 0
    (some "init") [] [] r h
  have hnd : r.rows.Nodup := by
    rw [hcoll]
    exact ZohoCreatorOperator.nodup_ddgo coll []
  have hfix : ZohoCreatorOperator.drop_duplicates r.rows = r.rows :=
    ZohoCreatorOperator.ddgo_fixpoint r.rows [] hnd
      (fun x _ => List.not_mem_nil x)
  refine ⟨hnd, hfix, ?_⟩
  intro extra hsub
  have habs : ZohoCreatorOperator.drop_duplicates (r.rows ++ extra) =
      ZohoCreatorOperator.drop_duplicates r.rows :=
    ZohoCreatorOperator.ddgo_append_absorb r.rows [] extra
      (fun x hx => Or.inl (hsub x hx))
  rw [habs, hfix]

/-- Witness for C10: two pages sharing the row a produce the returned
frame with rows a, b only; it is duplicate free, a fixed point of
deduplication, and absorbing a page of already collected rows. -/
theorem c10_download_bulk_data_dedup_witness :
    ZohoCreatorOperator.download_bulk_data Fixtures.c10_pages 3 =
      some ⟨[["a"], ["b"]], 2, [some "c", none]⟩ ∧
    ([["a"], ["b"]] : List (List String)).Nodup ∧
    ZohoCreatorOperator.drop_duplicates [["a"], ["b"]] = [["a"], ["b"]] ∧
    ZohoCreatorOperator.drop_duplicates ([["a"], ["b"]] ++ [["a"]]) =
      [["a"], ["b"]] := by
  have h : ZohoCreatorOperator.download_bulk_data Fixtures.c10_pages 3 =
      some ⟨[["a"], ["b"]], 2, [some "c", none]⟩ := by decide
  have hc := c10_download_bulk_data_dedup Fixtures.c10_pages 3
    ⟨[["a"], ["b"]], 2, [some "c", none]⟩ h
  exact ⟨h, hc.1, hc.2.1, hc.2.2 [["a"]] (by decide)⟩
